import Mathlib

/- Verification of the Neon Dogfight networking and combat core.

   Shallow embedding of src/player.js, src/game.js, src/ui.js, src/spawner.js,
   the manager classes and the weapon/asteroid/utility classes.  JS numbers are
   modelled as exact rationals.  Math.cos, Math.sin, Math.atan2, Math.PI and the
   pi-based angle-normalisation loops (normalizeAngle, getAngleDifference) have
   irrational values, so they enter the model as parameters collected in a Trig
   bundle; none of the properties proved below depend on their values. -/

namespace Dogfight

/-- Stand-ins for Math.cos, Math.sin, Math.atan2, Math.PI and the angle helpers
normalizeAngle and getAngleDifference of the utility module. -/
structure Trig where
  cosF : ℚ → ℚ
  sinF : ℚ → ℚ
  atan2F : ℚ → ℚ → ℚ
  piV : ℚ
  normF : ℚ → ℚ
  angleDiffF : ℚ → ℚ → ℚ

/-- GAME_SETTINGS.powerups.shield.maxStacks -/
def maxShieldStacks : ℤ := 3

/-- GAME_SETTINGS.player.maxBullets -/
def maxBulletsSetting : Nat := 5

/-- GAME_SETTINGS.player.radius -/
def playerRadius : ℚ := 12

/-- GAME_SETTINGS.powerups.multiShot.bulletCount -/
def multiShotBulletCount : Nat := 3

/-- GAME_SETTINGS.powerups.multiShot.spreadAngle (0.2) -/
def multiShotSpreadAngle : ℚ := 2/10

/-- GAME_SETTINGS.powerups.multiShot.duration -/
def multiShotDuration : ℚ := 8

/-- GAME_SETTINGS.powerups.invisibility.duration -/
def invisibilityDuration : ℚ := 10

/-- GAME_SETTINGS.powerups.reverse.duration -/
def reverseDuration : ℚ := 10

/-- GAME_SETTINGS.collision.playerPushDistance -/
def playerPushDistance : ℚ := 10

/-- GAME_SETTINGS.asteroid.health -/
def asteroidHealthSetting : ℤ := 5

/-- GAME_SETTINGS.asteroid.shrinkPerHit -/
def shrinkPerHit : ℚ := 95/100

/-- GAME_SETTINGS.weapons.homingMissile.turnSpeed (1.7) -/
def homingTurnSpeed : ℚ := 17/10

/-- GAME_SETTINGS.weapons.homingMissile.speed -/
def homingSpeed : ℚ := 200

/-- GAME_SETTINGS.weapons.homingMissile.lifetime -/
def homingLifetime : ℚ := 10

/-- The PowerUpType enumeration of the power-up module. -/
inductive PowerUpType where
  | SHIELD
  | MULTISHOT
  | HOMING
  | INVISIBILITY
  | LASER
  | BOMB
  | REVERSE
  | ASTEROID_CHASE
deriving DecidableEq, Repr

/-- A bullet as stored in Player.bullets (Bullet class; speed, radius,
maxDistance are constants and the colour is visual only). -/
structure BulletS where
  x : ℚ
  y : ℚ
  angle : ℚ
  ownerId : Nat
deriving DecidableEq, Repr

/-- State of the Player class (src/player.js constructor fields that take part
in game logic; colour, name and key bindings are visual or input concerns). -/
structure PlayerS where
  id : Nat
  x : ℚ
  y : ℚ
  angle : ℚ
  speedLevel : Nat
  turnState : ℤ
  alive : Bool
  radius : ℚ
  invulnerable : Bool
  invulnerableTime : ℚ
  shields : ℤ
  maxShields : ℤ
  multiShot : Bool
  multiShotTime : ℚ
  invisible : Bool
  invisibleTime : ℚ
  reversed : Bool
  reversedTime : ℚ
  hasHoming : Bool
  hasLaser : Bool
  hasBomb : Bool
  hasReverse : Bool
  hasAsteroidChase : Bool
  bullets : List BulletS
  maxBullets : Nat
deriving DecidableEq, Repr

/-- The Player constructor. -/
def mkPlayer (id : Nat) (x y angle : ℚ) : PlayerS where
  id := id
  x := x
  y := y
  angle := angle
  speedLevel := 0
  turnState := 0
  alive := true
  radius := playerRadius
  invulnerable := false
  invulnerableTime := 0
  shields := 0
  maxShields := maxShieldStacks
  multiShot := false
  multiShotTime := 0
  invisible := false
  invisibleTime := 0
  reversed := false
  reversedTime := 0
  hasHoming := false
  hasLaser := false
  hasBomb := false
  hasReverse := false
  hasAsteroidChase := false
  bullets := []
  maxBullets := maxBulletsSetting

/-- Player.addShield -/
def PlayerS.addShield (p : PlayerS) : PlayerS :=
  if p.shields < p.maxShields then { p with shields := p.shields + 1 } else p

/-- Player.removeShield (returns the updated player and the boolean result). -/
def PlayerS.removeShield (p : PlayerS) : PlayerS × Bool :=
  if p.shields > 0 then ({ p with shields := p.shields - 1 }, true) else (p, false)

/-- Player.die -/
def PlayerS.die (p : PlayerS) : PlayerS :=
  { p with
    alive := false
    shields := 0
    multiShot := false
    invisible := false
    reversed := false
    hasHoming := false
    hasLaser := false
    hasBomb := false
    hasReverse := false
    hasAsteroidChase := false
    bullets := [] }

/-- Player.respawn -/
def PlayerS.respawn (p : PlayerS) (x y angle : ℚ) : PlayerS :=
  { p with
    x := x
    y := y
    angle := angle
    alive := true
    invulnerable := true
    invulnerableTime := 0
    speedLevel := 0
    turnState := 0 }

/-- The getSpreadAngles closure inside Player.fire: one zero spread normally,
three spreads of (i - floor(bulletCount/2)) * spreadAngle under multishot. -/
def spreadAnglesOf (multiShot : Bool) : List ℚ :=
  if multiShot then
    (List.range multiShotBulletCount).map
      (fun i => ((i : ℚ) - ((multiShotBulletCount / 2 : Nat) : ℚ)) * multiShotSpreadAngle)
  else [0]

/-- A bomb created by Player.fire (Bomb class constructor arguments that carry
game state: position, angle, owner and the optional homing target). -/
structure BombSpawn (α : Type) where
  x : ℚ
  y : ℚ
  angle : ℚ
  ownerId : Nat
  target : Option α
deriving Repr

/-- A laser created by Player.fire (Laser class holds the firing player, the
owner id and the spread offset). -/
structure LaserSpawn (α : Type) where
  owner : α
  ownerId : Nat
  spread : ℚ
deriving Repr

/-- A homing missile created by Player.fire (HomingMissile constructor
arguments that carry game state). -/
structure MissileSpawn (α : Type) where
  x : ℚ
  y : ℚ
  angle : ℚ
  ownerId : Nat
  target : Option α
deriving Repr

/-- The result object of Player.fire: its type tag and the created weapon. -/
inductive FireResult (α : Type) where
  | reverse
  | asteroidChase
  | bomb (weapon : List (BombSpawn α))
  | laser (weapon : List (LaserSpawn α))
  | homing (weapon : List (MissileSpawn α))
  | bullets (weapon : List BulletS)
deriving Repr

/-- The standard-fire loop at the end of Player.fire: for each spread angle,
if the stored bullet list is still below maxBullets, a bullet is created and
pushed onto both the returned list and the stored list. -/
def standardFire (t : Trig) (x y baseAngle : ℚ) (ownerId : Nat) (maxB : Nat) :
    List ℚ → List BulletS → List BulletS × List BulletS
  | [], stored => ([], stored)
  | s :: rest, stored =>
    if stored.length < maxB then
      let a := baseAngle + s
      let b : BulletS := ⟨x + t.cosF a * 20, y + t.sinF a * 20, a, ownerId⟩
      let r := standardFire t x y baseAngle ownerId maxB rest (stored ++ [b])
      (b :: r.1, r.2)
    else
      standardFire t x y baseAngle ownerId maxB rest stored

/-- Player.fire.  The type parameter stands for references to player objects:
self is the firing player (this), targetPlayer the optional opponent passed in.
Returns none where the source returns null. -/
def PlayerS.fire {α : Type} (p : PlayerS) (t : Trig) (self : α) (targetPlayer : Option α) :
    Option (FireResult α × PlayerS) :=
  if p.alive = false then none
  else if p.hasReverse then some (.reverse, { p with hasReverse := false })
  else if p.hasAsteroidChase then some (.asteroidChase, { p with hasAsteroidChase := false })
  else if p.hasBomb then
    let bombTarget : Option α := if p.hasHoming then targetPlayer else none
    let p1 := { p with hasBomb := false }
    let p2 := if p1.hasHoming then { p1 with hasHoming := false } else p1
    let bombs := (spreadAnglesOf p.multiShot).map (fun s =>
      let a := p.angle + s
      (⟨p.x + t.cosF a * 20, p.y + t.sinF a * 20, a, p.id, bombTarget⟩ : BombSpawn α))
    some (.bomb bombs, p2)
  else if p.hasLaser then
    let lasers := (spreadAnglesOf p.multiShot).map
      (fun s => (⟨self, p.id, s⟩ : LaserSpawn α))
    some (.laser lasers, { p with hasLaser := false })
  else if p.hasHoming then
    let missileTarget : Option α := if p.reversed then some self else targetPlayer
    let missiles := (spreadAnglesOf p.multiShot).map (fun s =>
      let a := p.angle + s
      (⟨p.x + t.cosF a * 20, p.y + t.sinF a * 20, a, p.id, missileTarget⟩ : MissileSpawn α))
    some (.homing missiles, { p with hasHoming := false })
  else
    let r := standardFire t p.x p.y p.angle p.id p.maxBullets
      (spreadAnglesOf p.multiShot) p.bullets
    if 0 < r.1.length then some (.bullets r.1, { p with bullets := r.2 }) else none

/-- Math.sign as used in HomingMissile.update. -/
def signQ (q : ℚ) : ℚ := if q > 0 then 1 else if q < 0 then -1 else 0

/-- The utility wrapPosition: a coordinate below 0 wraps to the far edge, one
beyond the edge wraps to 0 (the later if wins when both apply). -/
def wrapPosition (x y w h : ℚ) : ℚ × ℚ :=
  let wx := if x > w then 0 else if x < 0 then w else x
  let wy := if y > h then 0 else if y < 0 then h else y
  (wx, wy)

/-- What HomingMissile.update reads from its targetPlayer reference. -/
structure TargetView where
  x : ℚ
  y : ℚ
  alive : Bool
  invisible : Bool
deriving Repr

/-- State of the HomingMissile class. -/
structure MissileS (α : Type) where
  x : ℚ
  y : ℚ
  angle : ℚ
  ownerId : Nat
  target : Option α
  alive : Bool
  age : ℚ
deriving Repr

/-- HomingMissile.update: ages the missile, steers toward the target only when
the target reference is set, alive and not invisible, then normalises the angle
and moves with wrapping.  Returns the new state and the boolean the source
returns to the filtering caller. -/
def MissileS.update {α : Type} (m : MissileS α) (t : Trig) (view : α → TargetView)
    (dt cw ch : ℚ) : MissileS α × Bool :=
  if m.alive = false then (m, false)
  else
    let age1 := m.age + dt
    if age1 > homingLifetime then ({ m with age := age1, alive := false }, false)
    else
      let angle1 :=
        match m.target with
        | none => m.angle
        | some tp =>
          let tv := view tp
          if tv.alive && !tv.invisible then
            let dx := tv.x - m.x
            let dy := tv.y - m.y
            let targetAngle := t.atan2F dy dx
            let angleDiff := t.angleDiffF m.angle targetAngle
            let maxTurn := homingTurnSpeed * dt
            if |angleDiff| < maxTurn then targetAngle
            else m.angle + signQ angleDiff * maxTurn
          else m.angle
      let angle2 := t.normF angle1
      let dist := homingSpeed * dt
      let w := wrapPosition (m.x + t.cosF angle2 * dist) (m.y + t.sinF angle2 * dist) cw ch
      ({ m with age := age1, angle := angle2, x := w.1, y := w.2 }, true)

/-- The RemotePlayer interpolation smoothing constant (0.3). -/
def smoothing : ℚ := 3/10

/-- State of the RemotePlayer class (the online-multiplayer version with
canvas dimensions, display and target positions, and mirrored flags). -/
structure RemoteP where
  displayX : ℚ
  displayY : ℚ
  displayAngle : ℚ
  targetX : ℚ
  targetY : ℚ
  targetAngle : ℚ
  canvasWidth : ℚ
  canvasHeight : ℚ
  alive : Bool
  shields : ℤ
  invulnerable : Bool
  invisible : Bool
  invisibleTime : ℚ
  multiShot : Bool
  multiShotTime : ℚ
  reversed : Bool
  reversedTime : ℚ
deriving DecidableEq, Repr

/-- The RemotePlayer constructor (positions start at 0; canvas is 1600x900). -/
def mkRemote : RemoteP where
  displayX := 0
  displayY := 0
  displayAngle := 0
  targetX := 0
  targetY := 0
  targetAngle := 0
  canvasWidth := 1600
  canvasHeight := 900
  alive := true
  shields := 0
  invulnerable := false
  invisible := false
  invisibleTime := 0
  multiShot := false
  multiShotTime := 0
  reversed := false
  reversedTime := 0

/-- The timed-flag countdown pattern shared by the invisibility, multishot and
reverse timers in RemotePlayer.update. -/
def tickTimer (flag : Bool) (time dur dt : ℚ) : Bool × ℚ :=
  if flag then
    let time1 := time + dt
    if time1 > dur then (false, 0) else (flag, time1)
  else (flag, time)

/-- RemotePlayer.update.  The angle-difference normalisation loops depend on
Math.PI, so they are abstracted as the angleWrap parameter; the positional
part is exact: when the delta on either axis exceeds half the canvas, both
coordinates are set to the target (wrap teleport), otherwise both are smoothed
by delta times 0.3. -/
def RemoteP.update (r : RemoteP) (angleWrap : ℚ → ℚ) (dt : ℚ) : RemoteP :=
  let inv := tickTimer r.invisible r.invisibleTime invisibilityDuration dt
  let ms := tickTimer r.multiShot r.multiShotTime multiShotDuration dt
  let rv := tickTimer r.reversed r.reversedTime reverseDuration dt
  let dx := r.targetX - r.displayX
  let dy := r.targetY - r.displayY
  let xWrapThreshold := r.canvasWidth / 2
  let yWrapThreshold := r.canvasHeight / 2
  let isXWrapped := |dx| > xWrapThreshold
  let isYWrapped := |dy| > yWrapThreshold
  let pos :=
    if isXWrapped ∨ isYWrapped then (r.targetX, r.targetY)
    else (r.displayX + dx * smoothing, r.displayY + dy * smoothing)
  let angleDiff := angleWrap (r.targetAngle - r.displayAngle)
  { r with
    invisible := inv.1
    invisibleTime := inv.2
    multiShot := ms.1
    multiShotTime := ms.2
    reversed := rv.1
    reversedTime := rv.2
    displayX := pos.1
    displayY := pos.2
    displayAngle := r.displayAngle + angleDiff * smoothing }

/-- State of the Asteroid class that takes part in damage resolution.  The
polygon-vertex indentation performed on a hit only reshapes the silhouette
(it uses Math.sqrt and Math.atan2) and never feeds back into health or alive,
so the vertex list is not tracked here. -/
structure AsteroidS where
  health : ℤ
  alive : Bool
  size : ℚ
deriving DecidableEq, Repr

/-- The Asteroid constructor: health starts at GAME_SETTINGS.asteroid.health
and the asteroid is alive; the size is drawn randomly, so it is a parameter. -/
def mkAsteroid (size : ℚ) : AsteroidS where
  health := asteroidHealthSetting
  alive := true
  size := size

/-- Asteroid.takeDamage with hit coordinates supplied (the branch the game
always takes): subtract the damage, shrink the size, and clear alive exactly
when the resulting health is at most 0. -/
def AsteroidS.takeDamage (a : AsteroidS) (amount : ℤ) : AsteroidS :=
  let h := a.health - amount
  { health := h
    size := a.size * shrinkPerHit
    alive := if h ≤ 0 then false else a.alive }

/-- Iterated takeDamage(x, y, 1) calls. -/
def hitN : Nat → AsteroidS → AsteroidS
  | 0, a => a
  | n + 1, a => hitN n (a.takeDamage 1)

/-- Pointwise update of one entry of a list (used to model mutation of one
player object among many). -/
def updAt : List ℤ → Nat → (ℤ → ℤ) → List ℤ
  | [], _, _ => []
  | x :: xs, 0, f => f x :: xs
  | x :: xs, n + 1, f => x :: updAt xs n f

/-- The shield-mutating operations of the system: Player.addShield,
Player.removeShield, Player.die (shields to 0), the clamped shield increment
of applyPowerUpToRemote (Game and EntityManager versions), the guarded
decrement fallback of PlayerController.removeShield that CollisionSystem
hits perform on a RemotePlayer proxy (which has no removeShield method), and
RemotePlayer.onNetworkUpdate receiving the broadcast shields of a local
player. -/
inductive ShieldOp where
  | addShield (i : Nat)
  | removeShield (i : Nat)
  | die (i : Nat)
  | remoteApply (j : Nat)
  | remoteRemoveShield (j : Nat)
  | networkUpdate (i j : Nat)
deriving DecidableEq, Repr

/-- The shield counts of every local Player and every RemotePlayer proxy in
the system. -/
structure ShieldWorld where
  locals : List ℤ
  remotes : List ℤ
deriving DecidableEq, Repr

/-- One shield-mutating operation, as performed by the source:
addShield increments only below maxShields, removeShield decrements only
above 0, die zeroes, applyPowerUpToRemote sets min(shields + 1, 3), the
PlayerController.removeShield fallback on a remote proxy decrements only
above 0, and onNetworkUpdate copies the broadcast value of a local player. -/
def shieldStep (w : ShieldWorld) : ShieldOp → ShieldWorld
  | .addShield i =>
    { w with locals := updAt w.locals i (fun s => if s < maxShieldStacks then s + 1 else s) }
  | .removeShield i =>
    { w with locals := updAt w.locals i (fun s => if s > 0 then s - 1 else s) }
  | .die i => { w with locals := updAt w.locals i (fun _ => 0) }
  | .remoteApply j => { w with remotes := updAt w.remotes j (fun s => min (s + 1) 3) }
  | .remoteRemoveShield j =>
    { w with remotes := updAt w.remotes j (fun s => if s > 0 then s - 1 else s) }
  | .networkUpdate i j => { w with remotes := updAt w.remotes j (fun _ => w.locals.getD i 0) }

/-- Running a sequence of shield operations. -/
def shieldRun (w : ShieldWorld) (ops : List ShieldOp) : ShieldWorld :=
  ops.foldl shieldStep w

/-- The world at construction time: every Player and RemotePlayer starts with
shields = 0. -/
def initShieldWorld (nLoc nRem : Nat) : ShieldWorld :=
  ⟨List.replicate nLoc 0, List.replicate nRem 0⟩

/-- A player object held by a PlayerController: a local Player or a
RemotePlayer proxy. -/
inductive Combatant where
  | localC (p : PlayerS)
  | remoteC (r : RemoteP)
deriving Repr

/-- The alive flag of either kind of player object. -/
def Combatant.aliveC : Combatant → Bool
  | .localC p => p.alive
  | .remoteC r => r.alive

/-- Assignment to the alive flag of either kind of player object, as in
victimCtrl.player.alive = false. -/
def Combatant.setAlive : Combatant → Bool → Combatant
  | .localC p, b => .localC { p with alive := b }
  | .remoteC r, b => .remoteC { r with alive := b }

/-- PlayerController.isRemote (constructor-name check in the source). -/
def Combatant.isRemote : Combatant → Bool
  | .localC _ => false
  | .remoteC _ => true

/-- A power-up instance as kept in EntityManager.powerUps: its id and type. -/
structure PowerUpObj where
  id : Nat
  ptype : PowerUpType
deriving DecidableEq, Repr

/-- The game-side state touched by the GameNetworkFacade handlers under
study: the PlayerManager map and local-id set, the EntityManager power-up
list, the score map, the win threshold and the matchWon flag. -/
structure GameST where
  localIds : List Nat
  players : List (Nat × Combatant)
  powerUps : List PowerUpObj
  scores : List (Nat × Nat)
  winScore : Nat
  matchWon : Bool
deriving Repr

/-- PlayerManager.getPlayer (Map lookup by id). -/
def lookupP (l : List (Nat × Combatant)) (i : Nat) : Option Combatant :=
  (l.find? (fun e => e.1 = i)).map (fun e => e.2)

/-- Mutation of one controller in the PlayerManager map. -/
def setPlayerAt (l : List (Nat × Combatant)) (i : Nat) (f : Combatant → Combatant) :
    List (Nat × Combatant) :=
  l.map (fun e => if e.1 = i then (e.1, f e.2) else e)

/-- playerScores.get(id) with the || 0 default. -/
def scoreOf (l : List (Nat × Nat)) (k : Nat) : Nat :=
  ((l.find? (fun e => e.1 = k)).map (fun e => e.2)).getD 0

/-- playerScores.set(id, v) on the score Map. -/
def setScore (l : List (Nat × Nat)) (k v : Nat) : List (Nat × Nat) :=
  if l.any (fun e => e.1 = k) then l.map (fun e => if e.1 = k then (k, v) else e)
  else l ++ [(k, v)]

/-- GameNetworkFacade.handlePlayerDied: a death naming a locally owned victim
is ignored (logged only); otherwise the named victim, if known, is marked
dead, and a known attacker gains a point, ending the game when the win score
is reached and the match is not already won. -/
def handlePlayerDied (st : GameST) (victimId : Nat) (killerId : Option Nat) : GameST :=
  if victimId ∈ st.localIds then st
  else
    match lookupP st.players victimId with
    | none => st
    | some _ =>
      let st1 := { st with players := setPlayerAt st.players victimId (fun c => c.setAlive false) }
      match killerId with
      | none => st1
      | some kid =>
        match lookupP st1.players kid with
        | none => st1
        | some _ =>
          let cur := scoreOf st1.scores kid
          let st2 := { st1 with scores := setScore st1.scores kid (cur + 1) }
          if cur + 1 ≥ st2.winScore ∧ st2.matchWon = false then { st2 with matchWon := true }
          else st2

/-- EntityManager.applyPowerUpToRemote: shields are incremented with a clamp
at 3, invisibility and multishot set their flag and reset its timer, every
other type is ignored on a remote proxy. -/
def applyPowerUpToRemote (r : RemoteP) : PowerUpType → RemoteP
  | .SHIELD => { r with shields := min (r.shields + 1) 3 }
  | .INVISIBILITY => { r with invisible := true, invisibleTime := 0 }
  | .MULTISHOT => { r with multiShot := true, multiShotTime := 0 }
  | _ => r

/-- The fields of a powerup-collected message. -/
structure CollectedMsg where
  id : Nat
  playerId : Nat
  powerupType : Option PowerUpType
deriving DecidableEq, Repr

/-- The host-side state consulted by the powerup-pickup case of
PeerNetworkManager.handleMessage. -/
structure HostS where
  activePowerUps : List (Nat × PowerUpType)
deriving DecidableEq, Repr

/-- The powerup-pickup case of PeerNetworkManager.handleMessage on the host:
if the claimed id is still active it is deleted, a powerup-collected message
is broadcast and the local collected callback fires; otherwise nothing at all
happens.  Returns the new state, the broadcast messages and the local
callback events. -/
def hostHandlePowerupPickup (hs : HostS) (playerId pid : Nat) (ptype : Option PowerUpType) :
    HostS × List CollectedMsg × List CollectedMsg :=
  if hs.activePowerUps.any (fun e => e.1 = pid) then
    (⟨hs.activePowerUps.filter (fun e => e.1 ≠ pid)⟩,
     [⟨pid, playerId, ptype⟩], [⟨pid, playerId, ptype⟩])
  else (hs, [], [])

/-- GameNetworkFacade.handlePowerUpCollected: remove the power-up from the
map, then apply the effect only when the named player exists, is not locally
owned, is a remote proxy and the message carries a type. -/
def handlePowerUpCollected (st : GameST) (d : CollectedMsg) : GameST :=
  let st1 := { st with powerUps := st.powerUps.filter (fun p => p.id ≠ d.id) }
  match lookupP st1.players d.playerId with
  | none => st1
  | some ctrl =>
    if d.playerId ∈ st1.localIds then st1
    else
      match ctrl, d.powerupType with
      | .remoteC r, some ty =>
        { st1 with players :=
            setPlayerAt st1.players d.playerId (fun _ => .remoteC (applyPowerUpToRemote r ty)) }
      | _, _ => st1

/-- The wire messages handled by PeerNetworkManager.handleMessage (connection
handshakes and spawn notifications included). -/
inductive NetMsg where
  | joinRequest (name color : String)
  | joinAccepted (playerId : Nat)
  | gameState
  | playerJoined (id : Nat)
  | playerUpdate (id : Nat)
  | weaponFire (playerId : Nat)
  | playerDied (victimId : Nat) (killerId : Option Nat)
  | powerupPickup (playerId pid : Nat) (ptype : Option PowerUpType)
  | powerupSpawned
  | powerupCollected (d : CollectedMsg)
  | asteroidSpawned
  | asteroidDamaged
  | asteroidDestroyed
  | reverseEffect (playerId : Nat) (affected : List Nat)
  | asteroidChase (targetId : Nat)
deriving DecidableEq, Repr

/-- PeerNetworkManager.broadcast(message, excludePeerId): the set of peers a
broadcast reaches is every connection whose peer id differs from the excluded
one (none excludes nobody). -/
def broadcastTargets (conns : List String) (exclude : Option String) : List String :=
  conns.filter (fun peerId => exclude ≠ some peerId)

/-- The per-case relay decision of PeerNetworkManager.handleMessage: the list
of peers to which a copy of the received message itself is re-sent.  Every
broadcast call in the handler is guarded by isHost; player-update,
weapon-fire, player-died and reverse-effect additionally require the subject
player id of the message to differ from the host's own player id, while
asteroid-chase relays whenever the receiver is the host.  The powerup-pickup
case broadcasts a new powerup-collected message, not a copy of the received
one (modelled by hostHandlePowerupPickup), and the remaining cases send
nothing. -/
def relaySends (isHost : Bool) (myPlayerId : Nat) (conns : List String)
    (sender : Option String) : NetMsg → List String
  | .playerUpdate id =>
    if isHost ∧ id ≠ myPlayerId then broadcastTargets conns sender else []
  | .weaponFire pid =>
    if isHost ∧ pid ≠ myPlayerId then broadcastTargets conns sender else []
  | .playerDied vid _ =>
    if isHost ∧ vid ≠ myPlayerId then broadcastTargets conns sender else []
  | .reverseEffect pid _ =>
    if isHost ∧ pid ≠ myPlayerId then broadcastTargets conns sender else []
  | .asteroidChase _ =>
    if isHost then broadcastTargets conns sender else []
  | _ => []

/-- The callback slots of NetworkManager that handleMessage can fire. -/
inductive CallbackKind where
  | playerJoinedCb
  | playerUpdateCb
  | weaponFiredCb
  | playerDiedCb
  | powerUpSpawnedCb
  | powerUpCollectedCb
  | asteroidSpawnedCb
  | asteroidDamagedCb
  | asteroidDestroyedCb
  | reverseEffectCb
  | asteroidChaseCb
deriving DecidableEq, Repr

/-- The local callback that PeerNetworkManager.handleMessage dispatches for a
relayable message, on host and client alike (fired unconditionally for these
five message types whenever a handler is registered). -/
def dispatchKind : NetMsg → Option CallbackKind
  | .playerUpdate _ => some .playerUpdateCb
  | .weaponFire _ => some .weaponFiredCb
  | .playerDied _ _ => some .playerDiedCb
  | .reverseEffect _ _ => some .reverseEffectCb
  | .asteroidChase _ => some .asteroidChaseCb
  | _ => none

/-- The two local players and the game fields mutated by the player-vs-player
branch of Game.checkCollisions and by Game.handlePlayerHit.  shrapnelCount
counts the shrapnel pieces in flight (Game.shrapnel.length). -/
structure LocalDuel where
  p1 : PlayerS
  p2 : PlayerS
  scores : List (Nat × Nat)
  winScore : Nat
  matchWon : Bool
  shrapnelCount : Nat
deriving Repr

/-- The outcome of Game.handlePlayerHit on one victim. -/
structure HitOutcome where
  victim : PlayerS
  scores : List (Nat × Nat)
  matchWon : Bool
deriving Repr

/-- Game.handlePlayerHit: a shielded victim merely loses a shield; otherwise
the victim dies and a non-null attacker gains a point, winning the match when
the threshold is reached and the match is not already won (the respawn timer
it schedules is asynchronous and outside the collision tick). -/
def handlePlayerHit (victim : PlayerS) (attacker : Option PlayerS)
    (scores : List (Nat × Nat)) (winScore : Nat) (matchWon : Bool) : HitOutcome :=
  if victim.shields > 0 then ⟨(victim.removeShield).1, scores, matchWon⟩
  else
    let v := victim.die
    match attacker with
    | none => ⟨v, scores, matchWon⟩
    | some a =>
      let cur := scoreOf scores a.id
      let scores1 := setScore scores a.id (cur + 1)
      if cur + 1 ≥ winScore ∧ matchWon = false then ⟨v, scores1, true⟩
      else ⟨v, scores1, matchWon⟩

/-- The body of the player-vs-player collision branch of Game.checkCollisions
(already inside the distance test): a four-way branch on which players carry
shields.  Audio and particle calls are visual only; no branch touches the
shrapnel list or the asteroid. -/
def collidePP (t : Trig) (st : LocalDuel) (dist : ℚ) : LocalDuel :=
  let p1 := st.p1
  let p2 := st.p2
  let p1HasShield := p1.shields > 0
  let p2HasShield := p2.shields > 0
  if p1HasShield ∧ p2HasShield then
    let p1a := (p1.removeShield).1
    let p2a := (p2.removeShield).1
    let collisionAngle := t.atan2F (p2.y - p1.y) (p2.x - p1.x)
    let overlap := (p1.radius + p2.radius) - dist
    let pushDistance := overlap / 2 + playerPushDistance
    let p1b := { p1a with
      angle := collisionAngle + t.piV
      x := p1a.x - t.cosF collisionAngle * pushDistance
      y := p1a.y - t.sinF collisionAngle * pushDistance }
    let p2b := { p2a with
      angle := collisionAngle
      x := p2a.x + t.cosF collisionAngle * pushDistance
      y := p2a.y + t.sinF collisionAngle * pushDistance }
    { st with p1 := p1b, p2 := p2b }
  else if p1HasShield ∧ ¬p2HasShield then
    let hit := handlePlayerHit p2 (some p1) st.scores st.winScore st.matchWon
    let p1a := (p1.removeShield).1
    let awayAngle := t.atan2F (p1.y - p2.y) (p1.x - p2.x)
    let p1b := { p1a with
      angle := awayAngle
      x := p1a.x + t.cosF awayAngle * playerPushDistance
      y := p1a.y + t.sinF awayAngle * playerPushDistance }
    { st with p1 := p1b, p2 := hit.victim, scores := hit.scores, matchWon := hit.matchWon }
  else if ¬p1HasShield ∧ p2HasShield then
    let hit := handlePlayerHit p1 (some p2) st.scores st.winScore st.matchWon
    let p2a := (p2.removeShield).1
    let awayAngle := t.atan2F (p2.y - p1.y) (p2.x - p1.x)
    let p2b := { p2a with
      angle := awayAngle
      x := p2a.x + t.cosF awayAngle * playerPushDistance
      y := p2a.y + t.sinF awayAngle * playerPushDistance }
    { st with p1 := hit.victim, p2 := p2b, scores := hit.scores, matchWon := hit.matchWon }
  else
    let hit1 := handlePlayerHit p1 none st.scores st.winScore st.matchWon
    let hit2 := handlePlayerHit p2 none hit1.scores st.winScore hit1.matchWon
    { st with p1 := hit1.victim, p2 := hit2.victim, scores := hit2.scores,
              matchWon := hit2.matchWon }

/-- The guards around the player-vs-player branch: dead or invulnerable
players are skipped, and the branch body runs only when the wrapped distance
is below the radius sum (the distance is a Math.sqrt value, so it is a
parameter here). -/
def checkPlayerPair (t : Trig) (st : LocalDuel) (dist : ℚ) : LocalDuel :=
  if st.p1.alive = false ∨ st.p2.alive = false ∨
      st.p1.invulnerable = true ∨ st.p2.invulnerable = true then st
  else if dist < st.p1.radius + st.p2.radius then collidePP t st dist
  else st

/-- A concrete Trig bundle used by the witnesses (its values are irrelevant
to every property proved here). -/
def trig0 : Trig where
  cosF := fun _ => 1
  sinF := fun _ => 0
  atan2F := fun _ _ => 0
  piV := 3
  normF := fun a => a
  angleDiffF := fun _ _ => 0

/-- C10: Player.die leaves alive false, shields 0, every timed flag and every
one-shot ammo flag false and an empty bullet list, and a later Player.respawn
restores alive and invulnerability without restoring any power-up. -/
theorem die_clears_powerups (p : PlayerS) (x y a : ℚ) :
    p.die.alive = false ∧ p.die.shields = 0 ∧
    p.die.multiShot = false ∧ p.die.invisible = false ∧ p.die.reversed = false ∧
    p.die.hasHoming = false ∧ p.die.hasLaser = false ∧ p.die.hasBomb = false ∧
    p.die.hasReverse = false ∧ p.die.hasAsteroidChase = false ∧
    p.die.bullets = [] ∧
    (p.die.respawn x y a).alive = true ∧ (p.die.respawn x y a).invulnerable = true ∧
    (p.die.respawn x y a).shields = 0 ∧
    (p.die.respawn x y a).multiShot = false ∧ (p.die.respawn x y a).invisible = false ∧
    (p.die.respawn x y a).reversed = false ∧
    (p.die.respawn x y a).hasHoming = false ∧ (p.die.respawn x y a).hasLaser = false ∧
    (p.die.respawn x y a).hasBomb = false ∧ (p.die.respawn x y a).hasReverse = false ∧
    (p.die.respawn x y a).hasAsteroidChase = false ∧
    (p.die.respawn x y a).bullets = [] := by
  simp [PlayerS.die, PlayerS.respawn]

/-- Once an asteroid is dead, further hits never revive it. -/
theorem hitN_dead (n : Nat) (a : AsteroidS) (h : a.alive = false) :
    (hitN n a).alive = false := by
  induction n generalizing a with
  | zero => exact h
  | succ k ih =>
    simp only [hitN]
    apply ih
    simp only [AsteroidS.takeDamage, h]
    split <;> rfl

/-- An alive asteroid stays alive while strictly fewer hits than its health
have landed. -/
theorem hitN_alive (n : Nat) (a : AsteroidS) (h : a.alive = true)
    (hn : (n : ℤ) < a.health) : (hitN n a).alive = true := by
  induction n generalizing a with
  | zero => exact h
  | succ k ih =>
    simp only [hitN]
    have hpos : ¬ a.health - 1 ≤ 0 := by omega
    apply ih
    · simp only [AsteroidS.takeDamage, if_neg hpos, h]
    · simp only [AsteroidS.takeDamage]
      omega

/-- At least one hit and at least health many hits in total kill the
asteroid. -/
theorem hitN_killed (n : Nat) (a : AsteroidS) (hle : a.health ≤ (n : ℤ))
    (h1 : 1 ≤ n) : (hitN n a).alive = false := by
  induction n generalizing a with
  | zero => omega
  | succ k ih =>
    simp only [hitN]
    by_cases hz : a.health - 1 ≤ 0
    · apply hitN_dead
      simp only [AsteroidS.takeDamage, if_pos hz]
    · have hk : 1 ≤ k := by omega
      apply ih
      · simp only [AsteroidS.takeDamage]
        omega
      · exact hk

/-- C7: a freshly constructed asteroid has health 5 and is alive; after n
takeDamage(x, y, 1) calls with n at most 4 it is still alive, and after the
fifth call it is dead. -/
theorem asteroid_five_hits (size : ℚ) (n : Nat) (h : n ≤ 4) :
    (mkAsteroid size).health = 5 ∧ (mkAsteroid size).alive = true ∧
    (hitN n (mkAsteroid size)).alive = true ∧
    (hitN 5 (mkAsteroid size)).alive = false := by
  refine ⟨rfl, rfl, ?_, ?_⟩
  · apply hitN_alive
    · rfl
    · show (n : ℤ) < asteroidHealthSetting
      simp only [asteroidHealthSetting]
      omega
  · apply hitN_killed
    · show asteroidHealthSetting ≤ (5 : ℤ)
      simp [asteroidHealthSetting]
    · omega

/-- Witness for asteroid_five_hits at size 40 and n = 4. -/
theorem asteroid_five_hits_witness :
    (mkAsteroid 40).health = 5 ∧ (mkAsteroid 40).alive = true ∧
    (hitN 4 (mkAsteroid 40)).alive = true ∧
    (hitN 5 (mkAsteroid 40)).alive = false :=
  asteroid_five_hits 40 4 (by norm_num)

/-- C1: GameNetworkFacade.handlePlayerDied returns the game state untouched
whenever the named victim is a locally owned player: no alive flag, score or
other entity changes (the message is only logged). -/
theorem handlePlayerDied_local_noop (st : GameST) (victimId : Nat)
    (killerId : Option Nat) (h : victimId ∈ st.localIds) :
    handlePlayerDied st victimId killerId = st := by
  simp [handlePlayerDied, h]

/-- A concrete game state with one local and one remote player. -/
def gameSt0 : GameST where
  localIds := [1]
  players := [(1, .localC (mkPlayer 1 100 100 0)), (2, .remoteC mkRemote)]
  powerUps := [⟨7, .SHIELD⟩]
  scores := [(1, 0), (2, 0)]
  winScore := 3
  matchWon := false

/-- Witness for handlePlayerDied_local_noop: a player-died message naming
local player 1 leaves gameSt0 unchanged. -/
theorem handlePlayerDied_local_noop_witness :
    1 ∈ gameSt0.localIds ∧ handlePlayerDied gameSt0 1 (some 2) = gameSt0 :=
  ⟨by simp [gameSt0], handlePlayerDied_local_noop gameSt0 1 (some 2) (by simp [gameSt0])⟩

/-- A pickup claim for an id that is not active is a complete no-op on the
authority: same state, no broadcast, no callback. -/
theorem hostPickup_absent_noop (hs : HostS) (playerId pid : Nat)
    (ty : Option PowerUpType)
    (habsent : hs.activePowerUps.any (fun e => e.1 = pid) = false) :
    hostHandlePowerupPickup hs playerId pid ty = (hs, [], []) := by
  simp [hostHandlePowerupPickup, habsent]

/-- After an accepted pickup the id is gone from the active set. -/
theorem hostPickup_removes (hs : HostS) (playerId pid : Nat)
    (ty : Option PowerUpType)
    (hpresent : hs.activePowerUps.any (fun e => e.1 = pid) = true) :
    ((hostHandlePowerupPickup hs playerId pid ty).1.activePowerUps.any
      (fun e => e.1 = pid)) = false := by
  simp only [hostHandlePowerupPickup, if_pos hpresent, List.any_eq_false]
  intro e he
  have h2 := (List.mem_filter.mp he).2
  simp_all

/-- C2: with the claimed id present, the first of two sequential pickup
claims removes the power-up, broadcasts powerup-collected and raises the
collected callback for claimant 1; the second claim is a complete no-op, as
is any claim for an absent id; and applying powerup-collected for a locally
owned player only removes the power-up from the map without touching any
player (the effect is not re-applied). -/
theorem powerup_pickup_race (hs : HostS) (st : GameST) (c1 c2 pid : Nat)
    (ty : Option PowerUpType) (d : CollectedMsg)
    (hpresent : hs.activePowerUps.any (fun e => e.1 = pid) = true)
    (hlocal : d.playerId ∈ st.localIds) :
    (hostHandlePowerupPickup hs c1 pid ty).2.1 = [⟨pid, c1, ty⟩] ∧
    (hostHandlePowerupPickup hs c1 pid ty).2.2 = [⟨pid, c1, ty⟩] ∧
    ((hostHandlePowerupPickup hs c1 pid ty).1.activePowerUps.any
      (fun e => e.1 = pid)) = false ∧
    hostHandlePowerupPickup (hostHandlePowerupPickup hs c1 pid ty).1 c2 pid ty
      = ((hostHandlePowerupPickup hs c1 pid ty).1, [], []) ∧
    (∀ hs2 : HostS, hs2.activePowerUps.any (fun e => e.1 = pid) = false →
      hostHandlePowerupPickup hs2 c2 pid ty = (hs2, [], [])) ∧
    handlePowerUpCollected st d
      = { st with powerUps := st.powerUps.filter (fun p => p.id ≠ d.id) } := by
  refine ⟨?_, ?_, hostPickup_removes hs c1 pid ty hpresent, ?_, ?_, ?_⟩
  · simp [hostHandlePowerupPickup, hpresent]
  · simp [hostHandlePowerupPickup, hpresent]
  · exact hostPickup_absent_noop _ c2 pid ty (hostPickup_removes hs c1 pid ty hpresent)
  · intro hs2 h2
    exact hostPickup_absent_noop hs2 c2 pid ty h2
  · unfold handlePowerUpCollected
    cases hfind : lookupP st.players d.playerId <;> simp [hfind, hlocal]

/-- A concrete host state holding one active power-up with id 7. -/
def hostSt0 : HostS := ⟨[(7, .SHIELD)]⟩

/-- Witness for powerup_pickup_race: claims by players 2 and 3 for power-up 7
against hostSt0, and a powerup-collected message naming local player 1 of
gameSt0. -/
theorem powerup_pickup_race_witness :
    (hostHandlePowerupPickup hostSt0 2 7 (some .SHIELD)).2.1
      = [⟨7, 2, some .SHIELD⟩] ∧
    hostHandlePowerupPickup (hostHandlePowerupPickup hostSt0 2 7 (some .SHIELD)).1
        3 7 (some .SHIELD)
      = ((hostHandlePowerupPickup hostSt0 2 7 (some .SHIELD)).1, [], []) ∧
    handlePowerUpCollected gameSt0 ⟨7, 1, some .SHIELD⟩
      = { gameSt0 with
          powerUps := gameSt0.powerUps.filter (fun p => p.id ≠ 7) } := by
  have h := powerup_pickup_race hostSt0 gameSt0 2 3 7 (some .SHIELD)
    ⟨7, 1, some .SHIELD⟩ (by simp [hostSt0]) (by simp [gameSt0])
  exact ⟨h.1, h.2.2.2.1, h.2.2.2.2.2⟩

/-- The two client connections of a three-peer session, as seen by the host. -/
def connsEx : List String := ["p2", "p3"]

/-- Counterexample to C3 as stated: a player-died message from peer p2 whose
victimId equals the host's own player id is not re-broadcast at all, although
the claim requires a broadcast to every connected peer except the sender
(which would be p3). -/
theorem relay_unconditional_cex :
    relaySends true 1 connsEx (some "p2") (.playerDied 1 none) = [] ∧
    broadcastTargets connsEx (some "p2") = ["p3"] ∧
    ([] : List String) ≠ ["p3"] := by
  refine ⟨?_, ?_, ?_⟩ <;> simp [relaySends, broadcastTargets, connsEx]

/-- C3 (amended): a client never re-sends a received message; broadcast
reaches exactly the connected peers minus the excluded one; the host relays
player-update, weapon-fire, player-died and reverse-effect to all peers but
the sender exactly when the message subject id differs from the host's own
player id (and drops the relay when it matches), relays asteroid-chase
unconditionally, and dispatches the matching callback for each of the five
relayable types. -/
theorem relay_amended (myId : Nat) (conns : List String) (sender : Option String) :
    (∀ m : NetMsg, relaySends false myId conns sender m = []) ∧
    (∀ c ex, c ∈ broadcastTargets conns ex ↔ c ∈ conns ∧ ex ≠ some c) ∧
    (∀ id, id ≠ myId →
      relaySends true myId conns sender (.playerUpdate id) = broadcastTargets conns sender) ∧
    relaySends true myId conns sender (.playerUpdate myId) = [] ∧
    (∀ pid, pid ≠ myId →
      relaySends true myId conns sender (.weaponFire pid) = broadcastTargets conns sender) ∧
    relaySends true myId conns sender (.weaponFire myId) = [] ∧
    (∀ vid k, vid ≠ myId →
      relaySends true myId conns sender (.playerDied vid k) = broadcastTargets conns sender) ∧
    (∀ k, relaySends true myId conns sender (.playerDied myId k) = []) ∧
    (∀ pid aff, pid ≠ myId →
      relaySends true myId conns sender (.reverseEffect pid aff)
        = broadcastTargets conns sender) ∧
    (∀ aff, relaySends true myId conns sender (.reverseEffect myId aff) = []) ∧
    (∀ tid,
      relaySends true myId conns sender (.asteroidChase tid) = broadcastTargets conns sender) ∧
    (∀ id, dispatchKind (.playerUpdate id) = some .playerUpdateCb) ∧
    (∀ pid, dispatchKind (.weaponFire pid) = some .weaponFiredCb) ∧
    (∀ vid k, dispatchKind (.playerDied vid k) = some .playerDiedCb) ∧
    (∀ pid aff, dispatchKind (.reverseEffect pid aff) = some .reverseEffectCb) ∧
    (∀ tid, dispatchKind (.asteroidChase tid) = some .asteroidChaseCb) := by
  refine ⟨?_, ?_, ?_, ?_, ?_, ?_, ?_, ?_, ?_, ?_, ?_, ?_, ?_, ?_, ?_, ?_⟩
  · intro m
    cases m <;> simp [relaySends]
  · intro c ex
    simp only [broadcastTargets, List.mem_filter, decide_eq_true_eq]
  · intro id h
    simp [relaySends, h]
  · simp [relaySends]
  · intro pid h
    simp [relaySends, h]
  · simp [relaySends]
  · intro vid k h
    simp [relaySends, h]
  · intro k
    simp [relaySends]
  · intro pid aff h
    simp [relaySends, h]
  · intro aff
    simp [relaySends]
  · intro tid
    simp [relaySends]
  · intro id
    rfl
  · intro pid
    rfl
  · intro vid k
    rfl
  · intro pid aff
    rfl
  · intro tid
    rfl

/-- Witness for relay_amended at the three-peer session: a player-died from
p2 naming player 2 is forwarded to exactly p3, one naming the host player 1
is dropped, and a client forwards nothing. -/
theorem relay_amended_witness :
    relaySends true 1 connsEx (some "p2") (.playerDied 2 (some 1)) = ["p3"] ∧
    relaySends true 1 connsEx (some "p2") (.playerDied 1 none) = [] ∧
    relaySends false 1 connsEx (some "p2") (.playerDied 2 (some 1)) = [] := by
  have h := relay_amended 1 connsEx (some "p2")
  refine ⟨?_, h.2.2.2.2.2.2.2.1 none, h.1 (.playerDied 2 (some 1))⟩
  have h2 := h.2.2.2.2.2.2.1 2 (some 1) (by norm_num)
  rw [h2]
  simp [broadcastTargets, connsEx]

/-- A remote player at display (10, 100) with target (1590, 200): the x delta
exceeds half the arena width, the y delta does not. -/
def exRemote : RemoteP :=
  { mkRemote with displayX := 10, displayY := 100, targetX := 1590, targetY := 200 }

/-- Counterexample to C4 as stated: on exRemote the y axis delta (100) is
within half the arena height (450), yet the tick sets displayY to the target
200 rather than the smoothed 130 the claim requires for that axis — when one
axis wraps, the code snaps both axes. -/
theorem remote_snap_cex :
    |exRemote.targetY - exRemote.displayY| ≤ exRemote.canvasHeight / 2 ∧
    (exRemote.update (fun a => a) 1).displayY = 200 ∧
    ¬ (exRemote.update (fun a => a) 1).displayY
        = exRemote.displayY + (exRemote.targetY - exRemote.displayY) * smoothing := by
  refine ⟨by norm_num [exRemote, mkRemote], ?_, ?_⟩ <;>
    norm_num [RemoteP.update, exRemote, mkRemote, tickTimer, smoothing]

/-- C4 (amended): on every RemotePlayer tick, if the delta to the target
exceeds half the arena width on x or half the arena height on y, BOTH display
coordinates snap to the target immediately (so the claimed example still
holds exactly); only when both deltas are within half the arena is each axis
smoothed by delta times 0.3. -/
theorem remote_update_snap (r : RemoteP) (aw : ℚ → ℚ) (dt : ℚ) :
    ((|r.targetX - r.displayX| > r.canvasWidth / 2 ∨
      |r.targetY - r.displayY| > r.canvasHeight / 2) →
      (r.update aw dt).displayX = r.targetX ∧ (r.update aw dt).displayY = r.targetY) ∧
    ((|r.targetX - r.displayX| ≤ r.canvasWidth / 2 ∧
      |r.targetY - r.displayY| ≤ r.canvasHeight / 2) →
      (r.update aw dt).displayX = r.displayX + (r.targetX - r.displayX) * smoothing ∧
      (r.update aw dt).displayY = r.displayY + (r.targetY - r.displayY) * smoothing) := by
  constructor
  · intro h
    simp only [RemoteP.update]
    rw [if_pos h]
    exact ⟨rfl, rfl⟩
  · intro h
    have hn : ¬ (|r.targetX - r.displayX| > r.canvasWidth / 2 ∨
        |r.targetY - r.displayY| > r.canvasHeight / 2) := by
      push_neg
      exact h
    simp only [RemoteP.update]
    rw [if_neg hn]
    exact ⟨rfl, rfl⟩

/-- Witness for remote_update_snap on exRemote: the wrapped x delta makes
both axes snap, so display becomes exactly (1590, 200). -/
theorem remote_update_snap_witness :
    (exRemote.update (fun a => a) 1).displayX = 1590 ∧
    (exRemote.update (fun a => a) 1).displayY = 200 := by
  have h := (remote_update_snap exRemote (fun a => a) 1).1
    (by norm_num [exRemote, mkRemote])
  simpa [exRemote, mkRemote] using h

/-- C5: for an alive player, Player.fire consumes exactly the first matching
ammo type in the priority order reverse, asteroidChase, bomb, laser, homing,
standard bullets: the first true flag is cleared and a result of that type
returned with every lower-priority ammo flag untouched, except that a bomb
also consumes hasHoming to produce homing bombs; standard bullets are the
fallback with no ammo flag set; and fire returns null for a dead player. -/
theorem fire_ammo_priority {α : Type} (t : Trig) (p : PlayerS) (self : α)
    (tp : Option α) (h : p.alive = true) :
    (p.hasReverse = true → ∃ p2, p.fire t self tp = some (.reverse, p2) ∧
      p2.hasReverse = false ∧ p2.hasAsteroidChase = p.hasAsteroidChase ∧
      p2.hasBomb = p.hasBomb ∧ p2.hasLaser = p.hasLaser ∧
      p2.hasHoming = p.hasHoming) ∧
    (p.hasReverse = false → p.hasAsteroidChase = true →
      ∃ p2, p.fire t self tp = some (.asteroidChase, p2) ∧
      p2.hasAsteroidChase = false ∧ p2.hasReverse = false ∧
      p2.hasBomb = p.hasBomb ∧ p2.hasLaser = p.hasLaser ∧
      p2.hasHoming = p.hasHoming) ∧
    (p.hasReverse = false → p.hasAsteroidChase = false → p.hasBomb = true →
      ∃ bombs p2, p.fire t self tp = some (.bomb bombs, p2) ∧
      p2.hasBomb = false ∧ p2.hasHoming = false ∧ p2.hasLaser = p.hasLaser ∧
      p2.hasReverse = false ∧ p2.hasAsteroidChase = false ∧
      (∀ b ∈ bombs, b.target = if p.hasHoming then tp else none)) ∧
    (p.hasReverse = false → p.hasAsteroidChase = false → p.hasBomb = false →
      p.hasLaser = true →
      ∃ ls p2, p.fire t self tp = some (.laser ls, p2) ∧
      p2.hasLaser = false ∧ p2.hasHoming = p.hasHoming ∧
      p2.hasReverse = false ∧ p2.hasAsteroidChase = false ∧ p2.hasBomb = false) ∧
    (p.hasReverse = false → p.hasAsteroidChase = false → p.hasBomb = false →
      p.hasLaser = false → p.hasHoming = true →
      ∃ ms p2, p.fire t self tp = some (.homing ms, p2) ∧
      p2.hasHoming = false ∧ p2.hasReverse = false ∧
      p2.hasAsteroidChase = false ∧ p2.hasBomb = false ∧ p2.hasLaser = false ∧
      (∀ m ∈ ms, m.target = if p.reversed then some self else tp)) ∧
    (p.hasReverse = false → p.hasAsteroidChase = false → p.hasBomb = false →
      p.hasLaser = false → p.hasHoming = false →
      p.fire t self tp = none ∨
      ∃ bs p2, p.fire t self tp = some (.bullets bs, p2)) ∧
    (∀ q : PlayerS, q.alive = false → q.fire t self tp = none) := by
  refine ⟨?_, ?_, ?_, ?_, ?_, ?_, ?_⟩
  · intro h1
    refine ⟨{ p with hasReverse := false }, ?_, rfl, rfl, rfl, rfl, rfl⟩
    simp [PlayerS.fire, h, h1]
  · intro h1 h2
    refine ⟨{ p with hasAsteroidChase := false }, ?_, rfl, h1, rfl, rfl, rfl⟩
    simp [PlayerS.fire, h, h1, h2]
  · intro h1 h2 h3
    refine ⟨(spreadAnglesOf p.multiShot).map (fun s =>
        ⟨p.x + t.cosF (p.angle + s) * 20, p.y + t.sinF (p.angle + s) * 20,
         p.angle + s, p.id, if p.hasHoming then tp else none⟩),
      (if p.hasHoming then { p with hasBomb := false, hasHoming := false }
       else { p with hasBomb := false }), ?_, ?_, ?_, ?_, ?_, ?_, ?_⟩
    · by_cases hh : p.hasHoming <;> simp [PlayerS.fire, h, h1, h2, h3, hh]
    · by_cases hh : p.hasHoming <;> simp [hh]
    · by_cases hh : p.hasHoming <;> simp [hh]
    · by_cases hh : p.hasHoming <;> simp [hh]
    · by_cases hh : p.hasHoming <;> simp [hh, h1]
    · by_cases hh : p.hasHoming <;> simp [hh, h2]
    · intro b hb
      simp only [List.mem_map] at hb
      obtain ⟨s, -, rfl⟩ := hb
      rfl
  · intro h1 h2 h3 h4
    refine ⟨(spreadAnglesOf p.multiShot).map (fun s => ⟨self, p.id, s⟩),
      { p with hasLaser := false }, ?_, rfl, rfl, h1, h2, h3⟩
    simp [PlayerS.fire, h, h1, h2, h3, h4]
  · intro h1 h2 h3 h4 h5
    refine ⟨(spreadAnglesOf p.multiShot).map (fun s =>
        ⟨p.x + t.cosF (p.angle + s) * 20, p.y + t.sinF (p.angle + s) * 20,
         p.angle + s, p.id, if p.reversed then some self else tp⟩),
      { p with hasHoming := false }, ?_, rfl, h1, h2, h3, h4, ?_⟩
    · simp [PlayerS.fire, h, h1, h2, h3, h4, h5]
    · intro m hm
      simp only [List.mem_map] at hm
      obtain ⟨s, -, rfl⟩ := hm
      rfl
  · intro h1 h2 h3 h4 h5
    by_cases hb : 0 < (standardFire t p.x p.y p.angle p.id p.maxBullets
        (spreadAnglesOf p.multiShot) p.bullets).1.length
    · right
      refine ⟨(standardFire t p.x p.y p.angle p.id p.maxBullets
          (spreadAnglesOf p.multiShot) p.bullets).1,
        { p with bullets := (standardFire t p.x p.y p.angle p.id p.maxBullets
          (spreadAnglesOf p.multiShot) p.bullets).2 }, ?_⟩
      simp [PlayerS.fire, h, h1, h2, h3, h4, h5, hb]
    · left
      simp [PlayerS.fire, h, h1, h2, h3, h4, h5, hb]
  · intro q hq
    simp [PlayerS.fire, hq]

/-- An alive player with every ammo flag loaded at once. -/
def pAllAmmo : PlayerS :=
  { mkPlayer 1 100 100 0 with
    hasReverse := true
    hasAsteroidChase := true
    hasBomb := true
    hasLaser := true
    hasHoming := true }

/-- Witness for fire_ammo_priority at pAllAmmo: with everything loaded, the
shot is a reverse effect that leaves all lower-priority ammo in place, and a
dead player cannot fire. -/
theorem fire_ammo_priority_witness :
    (∃ p2, pAllAmmo.fire trig0 () (none : Option Unit) = some (.reverse, p2) ∧
      p2.hasReverse = false ∧ p2.hasAsteroidChase = pAllAmmo.hasAsteroidChase ∧
      p2.hasBomb = pAllAmmo.hasBomb ∧ p2.hasLaser = pAllAmmo.hasLaser ∧
      p2.hasHoming = pAllAmmo.hasHoming) ∧
    pAllAmmo.die.fire trig0 () (none : Option Unit) = none := by
  have hp := fire_ammo_priority trig0 pAllAmmo () (none : Option Unit) rfl
  exact ⟨hp.1 rfl, hp.2.2.2.2.2.2 pAllAmmo.die rfl⟩

/-- C8: firing with only homing ammo (not reversed) yields a homing result,
clears hasHoming and aims every created missile at the passed target; and a
missile whose target is invisible (or dead) is not steered on an update tick:
its new angle is exactly the normalisation of its old angle, independent of
the target position. -/
theorem homing_fire_and_invisible_skip {α : Type} (t : Trig) (p : PlayerS)
    (self b : α) (view : α → TargetView) (m : MissileS α) (dt cw ch : ℚ)
    (halive : p.alive = true) (hHom : p.hasHoming = true)
    (hrev : p.reversed = false) (h1 : p.hasReverse = false)
    (h2 : p.hasAsteroidChase = false) (h3 : p.hasBomb = false)
    (h4 : p.hasLaser = false)
    (hmt : m.target = some b)
    (hskip : (view b).invisible = true ∨ (view b).alive = false)
    (hmalive : m.alive = true) (hage : ¬ m.age + dt > homingLifetime) :
    (∃ ms p2, p.fire t self (some b) = some (.homing ms, p2) ∧
      p2.hasHoming = false ∧ ms ≠ [] ∧ ∀ mi ∈ ms, mi.target = some b) ∧
    (m.update t view dt cw ch).1.angle = t.normF m.angle ∧
    (m.update t view dt cw ch).1.target = m.target := by
  refine ⟨?_, ?_, ?_⟩
  · refine ⟨(spreadAnglesOf p.multiShot).map (fun s =>
        ⟨p.x + t.cosF (p.angle + s) * 20, p.y + t.sinF (p.angle + s) * 20,
         p.angle + s, p.id, some b⟩),
      { p with hasHoming := false }, ?_, rfl, ?_, ?_⟩
    · simp [PlayerS.fire, halive, hHom, hrev, h1, h2, h3, h4]
    · simp only [ne_eq, List.map_eq_nil_iff]
      unfold spreadAnglesOf
      split <;> decide
    · intro mi hmi
      simp only [List.mem_map] at hmi
      obtain ⟨s, -, rfl⟩ := hmi
      rfl
  · rcases hskip with hs | hs <;>
      simp [MissileS.update, hmalive, hage, hmt, hs]
  · rcases hskip with hs | hs <;>
      simp [MissileS.update, hmalive, hage, hmt, hs]

/-- A player carrying only homing ammo. -/
def pHoming : PlayerS := { mkPlayer 1 100 100 0 with hasHoming := true }

/-- A missile owned by player 1 aimed at the single remote target. -/
def mHoming : MissileS Unit :=
  { x := 0, y := 0, angle := 1, ownerId := 1, target := some (), alive := true, age := 0 }

/-- An invisible target view. -/
def viewInvisible : Unit → TargetView := fun _ => ⟨500, 500, true, true⟩

/-- Witness for homing_fire_and_invisible_skip: pHoming fires a homing
missile at the target and mHoming is not steered while the target is
invisible. -/
theorem homing_fire_and_invisible_skip_witness :
    (∃ ms p2, pHoming.fire trig0 () (some ()) = some (.homing ms, p2) ∧
      p2.hasHoming = false ∧ ms ≠ [] ∧ ∀ mi ∈ ms, mi.target = some ()) ∧
    (mHoming.update trig0 viewInvisible 1 1600 900).1.angle = trig0.normF mHoming.angle ∧
    (mHoming.update trig0 viewInvisible 1 1600 900).1.target = mHoming.target :=
  homing_fire_and_invisible_skip trig0 pHoming () () viewInvisible mHoming 1 1600 900
    rfl rfl rfl rfl rfl rfl rfl rfl (Or.inl rfl) rfl (by norm_num [mHoming, homingLifetime])

/-- Members of a pointwise-updated list are old members or the image of an
old member. -/
theorem mem_updAt {l : List ℤ} {i : Nat} {f : ℤ → ℤ} {s : ℤ}
    (hs : s ∈ updAt l i f) : s ∈ l ∨ ∃ x ∈ l, s = f x := by
  induction l generalizing i with
  | nil => simp [updAt] at hs
  | cons a as ih =>
    cases i with
    | zero =>
      simp only [updAt, List.mem_cons] at hs
      rcases hs with rfl | h
      · exact Or.inr ⟨a, List.mem_cons_self a as, rfl⟩
      · exact Or.inl (List.mem_cons_of_mem a h)
    | succ j =>
      simp only [updAt, List.mem_cons] at hs
      rcases hs with rfl | h
      · exact Or.inl (List.mem_cons_self s as)
      · rcases ih h with h2 | ⟨x, hx, rfl⟩
        · exact Or.inl (List.mem_cons_of_mem a h2)
        · exact Or.inr ⟨x, List.mem_cons_of_mem a hx, rfl⟩

/-- getD with default 0 yields an element of the list or 0. -/
theorem getD_mem_or_zero (l : List ℤ) (i : Nat) :
    l.getD i 0 ∈ l ∨ l.getD i 0 = 0 := by
  induction l generalizing i with
  | nil => simp [List.getD]
  | cons a as ih =>
    cases i with
    | zero => simp [List.getD]
    | succ j =>
      rcases ih j with h | h
      · exact Or.inl (List.mem_cons_of_mem a h)
      · exact Or.inr h

/-- One shield operation preserves the 0..3 bound on every shield count. -/
theorem shieldStep_preserves (w : ShieldWorld) (op : ShieldOp)
    (hl : ∀ s ∈ w.locals, 0 ≤ s ∧ s ≤ 3) (hr : ∀ s ∈ w.remotes, 0 ≤ s ∧ s ≤ 3) :
    (∀ s ∈ (shieldStep w op).locals, 0 ≤ s ∧ s ≤ 3) ∧
    (∀ s ∈ (shieldStep w op).remotes, 0 ≤ s ∧ s ≤ 3) := by
  cases op with
  | addShield i =>
    refine ⟨?_, hr⟩
    intro s hs
    rcases mem_updAt hs with h | ⟨x, hx, rfl⟩
    · exact hl s h
    · have := hl x hx
      simp only [maxShieldStacks]
      split <;> omega
  | removeShield i =>
    refine ⟨?_, hr⟩
    intro s hs
    rcases mem_updAt hs with h | ⟨x, hx, rfl⟩
    · exact hl s h
    · have := hl x hx
      split <;> omega
  | die i =>
    refine ⟨?_, hr⟩
    intro s hs
    rcases mem_updAt hs with h | ⟨x, hx, rfl⟩
    · exact hl s h
    · omega
  | remoteApply j =>
    refine ⟨hl, ?_⟩
    intro s hs
    rcases mem_updAt hs with h | ⟨x, hx, rfl⟩
    · exact hr s h
    · have := hr x hx
      constructor
      · exact le_min (by omega) (by omega)
      · exact min_le_right _ _
  | remoteRemoveShield j =>
    refine ⟨hl, ?_⟩
    intro s hs
    rcases mem_updAt hs with h | ⟨x, hx, rfl⟩
    · exact hr s h
    · have := hr x hx
      split <;> omega
  | networkUpdate i j =>
    refine ⟨hl, ?_⟩
    intro s hs
    rcases mem_updAt hs with h | ⟨x, hx, rfl⟩
    · exact hr s h
    · rcases getD_mem_or_zero w.locals i with h | h
      · exact hl _ h
      · rw [h]
        omega

/-- C6: starting from construction (all shields 0), any sequence of the
shield-mutating operations of the system keeps every shield count of every
local player and every remote proxy within 0..3. -/
theorem shield_invariant (nLoc nRem : Nat) (ops : List ShieldOp) :
    (∀ s ∈ (shieldRun (initShieldWorld nLoc nRem) ops).locals, 0 ≤ s ∧ s ≤ 3) ∧
    (∀ s ∈ (shieldRun (initShieldWorld nLoc nRem) ops).remotes, 0 ≤ s ∧ s ≤ 3) := by
  have main : ∀ (ops : List ShieldOp) (w : ShieldWorld),
      (∀ s ∈ w.locals, 0 ≤ s ∧ s ≤ 3) → (∀ s ∈ w.remotes, 0 ≤ s ∧ s ≤ 3) →
      (∀ s ∈ (shieldRun w ops).locals, 0 ≤ s ∧ s ≤ 3) ∧
      (∀ s ∈ (shieldRun w ops).remotes, 0 ≤ s ∧ s ≤ 3) := by
    intro ops
    induction ops with
    | nil => exact fun w hl hr => ⟨hl, hr⟩
    | cons op rest ih =>
      intro w hl hr
      have hstep := shieldStep_preserves w op hl hr
      exact ih (shieldStep w op) hstep.1 hstep.2
  refine main ops (initShieldWorld nLoc nRem) ?_ ?_ <;>
    intro s hs <;>
    simp only [initShieldWorld, List.mem_replicate] at hs <;>
    omega

/-- A short operation sequence: three pickups and one overflow attempt on
local player 0, a clamped remote increment, a remote-proxy shield loss, a
sync, then a death. -/
def shieldOps0 : List ShieldOp :=
  [.addShield 0, .addShield 0, .addShield 0, .addShield 0,
   .remoteApply 0, .remoteRemoveShield 0, .networkUpdate 0 0,
   .removeShield 0, .die 0]

/-- Witness for shield_invariant: the lone local player of a 1-local 1-remote
world still has its shield count within 0..3 after shieldOps0. -/
theorem shield_invariant_witness :
    (shieldRun (initShieldWorld 1 1) shieldOps0).locals.getD 0 0
      ∈ (shieldRun (initShieldWorld 1 1) shieldOps0).locals ∧
    0 ≤ (shieldRun (initShieldWorld 1 1) shieldOps0).locals.getD 0 0 ∧
    (shieldRun (initShieldWorld 1 1) shieldOps0).locals.getD 0 0 ≤ 3 := by
  have hmem : (shieldRun (initShieldWorld 1 1) shieldOps0).locals.getD 0 0
      ∈ (shieldRun (initShieldWorld 1 1) shieldOps0).locals := by decide
  have h := (shield_invariant 1 1 shieldOps0).1 _ hmem
  exact ⟨hmem, h.1, h.2⟩

/-- C9: in a local-mode head-on collision of two hittable players, if p1 has
one shield and p2 none then p2 dies, p1 drops to zero shields and p1 is
displaced from p2 along the collision axis by the push distance, with the
shrapnel list untouched; and if neither is shielded both die through
handlePlayerHit with a null attacker, so the scores do not change. -/
theorem headon_collision (t : Trig) (st : LocalDuel) (dist : ℚ)
    (h1 : st.p1.alive = true) (h2 : st.p2.alive = true)
    (h3 : st.p1.invulnerable = false) (h4 : st.p2.invulnerable = false)
    (h5 : dist < st.p1.radius + st.p2.radius) :
    (st.p1.shields = 1 → st.p2.shields = 0 →
      (checkPlayerPair t st dist).p2.alive = false ∧
      (checkPlayerPair t st dist).p1.shields = 0 ∧
      (checkPlayerPair t st dist).p1.angle
        = t.atan2F (st.p1.y - st.p2.y) (st.p1.x - st.p2.x) ∧
      (checkPlayerPair t st dist).p1.x
        = st.p1.x + t.cosF (t.atan2F (st.p1.y - st.p2.y) (st.p1.x - st.p2.x))
            * playerPushDistance ∧
      (checkPlayerPair t st dist).p1.y
        = st.p1.y + t.sinF (t.atan2F (st.p1.y - st.p2.y) (st.p1.x - st.p2.x))
            * playerPushDistance ∧
      (checkPlayerPair t st dist).shrapnelCount = st.shrapnelCount) ∧
    (st.p1.shields = 0 → st.p2.shields = 0 →
      (checkPlayerPair t st dist).p1.alive = false ∧
      (checkPlayerPair t st dist).p2.alive = false ∧
      (checkPlayerPair t st dist).scores = st.scores ∧
      (checkPlayerPair t st dist).matchWon = st.matchWon ∧
      (checkPlayerPair t st dist).shrapnelCount = st.shrapnelCount) := by
  constructor
  · intro hs1 hs2
    simp [checkPlayerPair, h1, h2, h3, h4, h5, collidePP, hs1, hs2,
      handlePlayerHit, PlayerS.removeShield, PlayerS.die]
    split <;> rfl
  · intro hs1 hs2
    simp [checkPlayerPair, h1, h2, h3, h4, h5, collidePP, hs1, hs2,
      handlePlayerHit, PlayerS.die]

/-- The shielded-vs-unshielded duel of the claim: p1 carries one shield. -/
def duelShielded : LocalDuel where
  p1 := { mkPlayer 1 100 100 0 with shields := 1 }
  p2 := mkPlayer 2 110 100 0
  scores := [(1, 0), (2, 0)]
  winScore := 3
  matchWon := false
  shrapnelCount := 0

/-- Witness for headon_collision on duelShielded at distance 10: player 2
dies, player 1 keeps no shield and bounces away, no shrapnel appears. -/
theorem headon_collision_witness :
    (checkPlayerPair trig0 duelShielded 10).p2.alive = false ∧
    (checkPlayerPair trig0 duelShielded 10).p1.shields = 0 ∧
    (checkPlayerPair trig0 duelShielded 10).shrapnelCount
      = duelShielded.shrapnelCount := by
  have h := (headon_collision trig0 duelShielded 10 rfl rfl rfl rfl
    (by norm_num [duelShielded, mkPlayer, playerRadius])).1 rfl rfl
  exact ⟨h.1, h.2.1, h.2.2.2.2.2⟩

end Dogfight
